import Mathlib

/-!
Shallow embedding of the scorepi forecast-scoring package
(src/scorepi/score_functions.py, src/scorepi/base_classes.py,
src/scorepi/score_utils.py) and proofs about the claims of its
specification.

Modelling conventions:
* numpy float arrays are modelled as `List ℚ` (finite float values idealized
  as exact rationals).  Where a claim hinges on the `nan` that `np.mean` of
  an empty array returns, the value type `FVal` below adds the IEEE special
  values.  The scalar expression `2/alpha` in `interval_score` is plain
  Python division (`alpha` is a Python float), which raises
  ZeroDivisionError when `alpha = 0`; this is modelled as an explicit error
  branch in `interval_score_div_checked`.
* elementwise numpy arithmetic is modelled with `List.zipWith`; numpy's
  broadcast error on incompatible shapes is modelled as an explicit error
  where the source can hit it (the quantile monotonicity comparison);
  length-1 broadcasting is not modelled.
* pandas DataFrames of observation/prediction rows are modelled as lists of
  records plus the count of independent ("key") columns; column values of the
  independent columns are strings (dates and locations compare
  lexicographically).  `sort_values` is modelled by a stable insertion sort
  on the tuple of independent columns.
* Python exceptions are modelled with `Except String`; the message records
  which raise statement fired (`functools.reduce` of an empty list raises a
  TypeError whose message is used verbatim).
-/

namespace Scorepi

/-- IEEE-style value: a finite float idealized as an exact rational, or one
of the special values `inf`, `-inf`, `nan` (needed for `np.mean` of an empty
array, which returns `nan`). -/
inductive FVal where
  | fin (q : ℚ)
  | inf
  | ninf
  | nan
deriving DecidableEq, Repr

/-- Output record of `interval_score` (exact-rational version): the four
result vectors of src/scorepi/score_functions.py, lines 47-61.  The
`specify_range_out` flag of the source only changes the dictionary key names,
not the values, so it is not modelled. -/
structure IntervalScores where
  interval_score : List ℚ
  dispersion : List ℚ
  underprediction : List ℚ
  overprediction : List ℚ
deriving DecidableEq, Repr

/-- Embedding of `interval_score` (src/scorepi/score_functions.py, lines
11-61) with finite-float arithmetic idealized as exact rationals.  The
division `2/alpha` is a total rational division here; in the source it is a
plain Python scalar division that raises ZeroDivisionError when `alpha = 0`
(`interval_range = 100`), which is captured by the refined version
`interval_score_div_checked` below; the two agree whenever `alpha ≠ 0`
(`interval_score_div_checked_agrees`). -/
def interval_score (observation lower upper : List ℚ) (interval_range : ℚ) :
    Except String IntervalScores :=
  if lower.length ≠ upper.length ∨ lower.length ≠ observation.length then
    Except.error ("vector shape mismatch")
  else if 100 < interval_range ∨ interval_range < 0 then
    Except.error ("interval range should be between 0 and 100")
  else
    let alpha : ℚ := 1 - interval_range / 100
    let dispersion := List.zipWith (fun u l => u - l) upper lower
    let underprediction :=
      List.zipWith (fun l o => 2 / alpha * (l - o) * (if o < l then 1 else 0)) lower observation
    let overprediction :=
      List.zipWith (fun o u => 2 / alpha * (o - u) * (if u < o then 1 else 0)) observation upper
    Except.ok
      { interval_score :=
          List.zipWith (fun a b => a + b)
            (List.zipWith (fun a b => a + b) dispersion underprediction) overprediction
        dispersion := dispersion
        underprediction := underprediction
        overprediction := overprediction }

/-- Embedding of `interval_score` (src/scorepi/score_functions.py, lines
11-61) keeping Python's behaviour of the scalar division `2/alpha` at line
48: `alpha = 1 - interval_range/100` is a plain Python float, so when it is
zero (`interval_range = 100`, which passes the range validation) the
expression `(2/alpha)` raises `ZeroDivisionError: float division by zero`
before any score is produced.  Finite arithmetic is idealized as exact. -/
def interval_score_div_checked (observation lower upper : List ℚ) (interval_range : ℚ) :
    Except String IntervalScores :=
  if lower.length ≠ upper.length ∨ lower.length ≠ observation.length then
    Except.error ("vector shape mismatch")
  else if 100 < interval_range ∨ interval_range < 0 then
    Except.error ("interval range should be between 0 and 100")
  else
    let alpha : ℚ := 1 - interval_range / 100
    if alpha = 0 then
      Except.error ("float division by zero")
    else
      let dispersion := List.zipWith (fun u l => u - l) upper lower
      let underprediction :=
        List.zipWith (fun l o => 2 / alpha * (l - o) * (if o < l then 1 else 0))
          lower observation
      let overprediction :=
        List.zipWith (fun o u => 2 / alpha * (o - u) * (if u < o then 1 else 0))
          observation upper
      Except.ok
        { interval_score :=
            List.zipWith (fun a b => a + b)
              (List.zipWith (fun a b => a + b) dispersion underprediction) overprediction
          dispersion := dispersion
          underprediction := underprediction
          overprediction := overprediction }

/-- Embedding of `coverage` (src/scorepi/score_functions.py, lines 63-92).
`np.mean` of an empty array is `nan`, hence the `FVal` result. -/
def coverage (observation lower upper : List ℚ) : Except String FVal :=
  if lower.length ≠ upper.length ∨ lower.length ≠ observation.length then
    Except.error ("vector shape mismatch")
  else if observation.length = 0 then
    Except.ok FVal.nan
  else
    let within :=
      (List.zip observation (List.zip lower upper)).countP
        (fun p => decide (p.2.1 ≤ p.1 ∧ p.1 ≤ p.2.2))
    Except.ok (FVal.fin ((within : ℚ) / (observation.length : ℚ)))

/-- One row of an `Observations` frame (src/scorepi/base_classes.py, class
`Observations`): the observed value together with the tuple of independent
columns (the timestamp first, then the other independent columns such as
location), modelled positionally as a list of strings. -/
structure ObsRow where
  value : ℚ
  key : List String
deriving DecidableEq, Repr

/-- One row of a `Predictions` frame (src/scorepi/base_classes.py, class
`Predictions`): the predicted value, the quantile (absent — numpy NaN — for
point predictions), the prediction type tag (the `type` column, `"point"` or
`"quantile"`), and the independent-column tuple. -/
structure PredRow where
  value : ℚ
  quantile : Option ℚ
  ptype : String
  key : List String
deriving DecidableEq, Repr

/-- Sort key order used by `sort_values(by=self.ind_cols)`: lexicographic on
the tuple of independent columns (timestamp first). -/
def obsLE (a b : ObsRow) : Prop := a.key ≤ b.key

instance : DecidableRel obsLE := fun a b => inferInstanceAs (Decidable (a.key ≤ b.key))

instance : IsTotal ObsRow obsLE := ⟨fun a b => le_total a.key b.key⟩

instance : IsTrans ObsRow obsLE := ⟨fun _ _ _ h h' => le_trans h h'⟩

/-- Sort key order for prediction rows; rows sharing a key tuple (several
quantiles of one forecast) are tied, and the stable sort keeps their input
order. -/
def predLE (a b : PredRow) : Prop := a.key ≤ b.key

instance : DecidableRel predLE := fun a b => inferInstanceAs (Decidable (a.key ≤ b.key))

instance : IsTotal PredRow predLE := ⟨fun a b => le_total a.key b.key⟩

instance : IsTrans PredRow predLE := ⟨fun _ _ _ h h' => le_trans h h'⟩

/-- An `Observations` frame: the rows plus the number of independent columns
(`len(self.ind_cols)`, i.e. the timestamp column and the
`other_ind_cols`). -/
structure Observations where
  rows : List ObsRow
  ncols : ℕ
deriving DecidableEq, Repr

/-- `Observations.__init__` (src/scorepi/base_classes.py, lines 17-46):
sorts the rows by the independent columns.  The column-presence validation of
the source cannot fail in this typed model.  Modelling caveat: the sort is a
stable insertion sort; pandas `sort_values` is stable (lexsort) only for
multi-column keys and uses a non-stable quicksort for a single-column key,
so the relative order of rows with TIED key tuples after a single-key sort
is implementation-defined in the source and not captured by this model
(positional and elementwise properties, and frames whose key tuples are
distinct or use several columns, are unaffected). -/
def Observations.init (data : List ObsRow) (ncols : ℕ) : Observations :=
  { rows := List.insertionSort obsLE data, ncols := ncols }

/-- `Observations.filter` (src/scorepi/base_classes.py, lines 48-51): keep
the rows selected by the boolean mask and re-run the constructor on them.
The original frame is untouched (the embedding is purely functional, as is
the source: `self[bool_df].copy()` copies). -/
def Observations.filter (o : Observations) (mask : ObsRow → Bool) : Observations :=
  Observations.init (o.rows.filter mask) o.ncols

/-- `Observations.get_value` (src/scorepi/base_classes.py, line 58). -/
def Observations.get_value (o : Observations) : List ℚ := o.rows.map ObsRow.value

/-- `Observations.get_x` (src/scorepi/base_classes.py, lines 64-65): the
independent-column tuples of all rows. -/
def Observations.get_x (o : Observations) : List (List String) := o.rows.map ObsRow.key

/-- A `Predictions` frame: the rows plus the number of independent columns. -/
structure Predictions where
  rows : List PredRow
  ncols : ℕ
deriving DecidableEq, Repr

/-- `Predictions.__init__` (src/scorepi/base_classes.py, lines 76-122):
sorts the rows by the independent columns.  The defaulting of a missing
`type` column to `"quantile"` happens at row construction in this model.
The stable-sort caveat of `Observations.init` applies here too, and
prediction frames routinely hold many tied rows per key tuple (one per
quantile), so the tie order produced by the source's single-key sort is
implementation-defined. -/
def Predictions.init (data : List PredRow) (ncols : ℕ) : Predictions :=
  { rows := List.insertionSort predLE data, ncols := ncols }

/-- `Predictions.filter` (src/scorepi/base_classes.py, lines 124-127). -/
def Predictions.filter (p : Predictions) (mask : PredRow → Bool) : Predictions :=
  Predictions.init (p.rows.filter mask) p.ncols

/-- `Predictions.get_x` (src/scorepi/base_classes.py, lines 137-138). -/
def Predictions.get_x (p : Predictions) : List (List String) := p.rows.map PredRow.key

/-- `np.isclose` with its default tolerances (`rtol=1e-5`, `atol=1e-8`),
used for the tolerance-based quantile matching. -/
def isclose (a b : ℚ) : Bool := decide (|a - b| ≤ 1 / 100000000 + 1 / 100000 * |b|)

/-- The elementwise mask `np.isclose(self[quantile_col], q)` on one row; a
missing quantile (NaN in the source data, for point rows) never matches. -/
def PredRow.quantileClose (r : PredRow) (q : ℚ) : Bool :=
  match r.quantile with
  | some x => isclose x q
  | none => false

/-- `Predictions.get_quantile` (src/scorepi/base_classes.py, lines 153-155):
filter to the rows whose quantile is close to `q`, and return their values
(in sorted row order — `filter` re-runs the sorting constructor). -/
def Predictions.get_quantile (p : Predictions) (q : ℚ) : List ℚ :=
  (p.filter (fun r => r.quantileClose q)).rows.map PredRow.value

/-- `Predictions.get_point` (src/scorepi/base_classes.py, lines 145-150):
the values of the `point`-typed rows; if there are none, fall back to the
quantile-0.5 values. -/
def Predictions.get_point (p : Predictions) : List ℚ :=
  let point := (p.rows.filter (fun r => r.ptype == ("point"))).map PredRow.value
  if point.length = 0 then p.get_quantile (1 / 2) else point

/-- `np.unique(..., axis=0)` on a list of key tuples: the sorted list of the
distinct tuples. -/
def npUnique (l : List (List String)) : List (List String) :=
  (List.insertionSort (fun a b : List String => a ≤ b) l).dedup

/-- Per-range block of the output table of the timestamped pipeline: the
four `{range}_...` columns contributed by one interval range. -/
structure RangeBlock where
  interval_range : ℚ
  scores : IntervalScores
deriving DecidableEq, Repr

/-- Output table of `all_timestamped_scores_from_df`.  The source builds it
by `pd.merge`-folding the per-range partial frames on the independent
columns and then assigning the remaining columns positionally; since every
partial frame carries exactly the observation key tuples in observation
order, the merged frame is modelled as the key column plus the per-range
blocks plus the final columns. -/
structure ScoredTable where
  keys : List (List String)
  range_blocks : List RangeBlock
  wis : List ℚ
  point_absolute_error : List ℚ
  median_absolute_error : List ℚ
  median_absolute_error_underprediction : List ℚ
  median_absolute_error_overprediction : List ℚ
deriving DecidableEq, Repr

/-- `np.heaviside`: 0 below zero, `h0` at zero, 1 above zero. -/
def heaviside (x h0 : ℚ) : ℚ := if x < 0 then 0 else if x = 0 then h0 else 1

/-- One iteration of the `for interval_range in interval_ranges` loop of
`all_timestamped_scores_from_df` (src/scorepi/score_utils.py, lines 67-81):
fetch the two quantiles, raise `RuntimeError("something went wrong")` when
any lower value is `>=` its upper value, compute the interval score, and
accumulate `wis += 0.5 * alpha * score`.  A length mismatch between the two
fetched quantile vectors makes the numpy comparison raise a broadcast
error, modelled by the first branch. -/
def wisStep (observations : Observations) (predictions : Predictions)
    (acc : Except String (List ℚ × List RangeBlock)) (interval_range : ℚ) :
    Except String (List ℚ × List RangeBlock) :=
  match acc with
  | Except.error e => Except.error e
  | Except.ok (wis, blocks) =>
    let q_low := 1 / 2 - interval_range / 200
    let q_upp := 1 / 2 + interval_range / 200
    let lows := predictions.get_quantile q_low
    let upps := predictions.get_quantile q_upp
    if lows.length ≠ upps.length then
      Except.error ("operands could not be broadcast together")
    else if (List.zipWith (fun l u => decide (u ≤ l)) lows upps).any id then
      Except.error ("something went wrong")
    else
      match interval_score observations.get_value lows upps interval_range with
      | Except.error e => Except.error e
      | Except.ok sc =>
        let alpha := 1 - (q_upp - q_low)
        let wis' := List.zipWith (fun w s => w + 1 / 2 * alpha * s) wis sc.interval_score
        Except.ok (wis', blocks ++ [{ interval_range := interval_range, scores := sc }])

/-- Embedding of `all_timestamped_scores_from_df` (src/scorepi/score_utils.py,
lines 19-90).  Faithfulness notes:
* the final column assignments are the source's lines 85-89; in particular
  line 86 writes `median_absolute_error` into the `point_absolute_error`
  column (the computed `point_absolute_error` variable is never used);
* with an empty `interval_ranges` list, `functools.reduce` over the empty
  `df_list` raises a TypeError, modelled by the last error branch. -/
def all_timestamped_scores_from_df (observations : Observations)
    (predictions : Predictions) (interval_ranges : List ℚ) :
    Except String ScoredTable :=
  if npUnique observations.get_x ≠ npUnique predictions.get_x then
    Except.error ("Values for the independent columns do not match")
  else if (predictions.get_quantile (1 / 2)).length = 0 then
    Except.error ("The median must be calculated")
  else if predictions.get_point.length = 0 then
    Except.error ("The point estimate must be included")
  else
    let median := predictions.get_quantile (1 / 2)
    let obs := observations.get_value
    let median_absolute_error := List.zipWith (fun o m => |o - m|) obs median
    let median_absolute_error_underprediction :=
      List.zipWith (fun h e => h * e)
        (List.zipWith (fun m o => heaviside (m - o) 0) median obs) median_absolute_error
    let median_absolute_error_overprediction :=
      List.zipWith (fun h e => h * e)
        (List.zipWith (fun m o => heaviside (o - m) 0) median obs) median_absolute_error
    let wis0 := median_absolute_error.map (fun e => 1 / 2 * e)
    match interval_ranges.foldl (wisStep observations predictions) (Except.ok (wis0, [])) with
    | Except.error e => Except.error e
    | Except.ok (wis, blocks) =>
      let wisN := wis.map (fun w => w / ((interval_ranges.length : ℚ) + 1 / 2))
      if blocks.length = 0 then
        Except.error ("reduce() of empty iterable with no initial value")
      else
        Except.ok
          { keys := observations.get_x
            range_blocks := blocks
            wis := wisN
            point_absolute_error := median_absolute_error
            median_absolute_error := median_absolute_error
            median_absolute_error_underprediction := median_absolute_error_underprediction
            median_absolute_error_overprediction := median_absolute_error_overprediction }

/-- The elementwise membership mask `series.isin(other_series)` on the `c`-th
independent column. -/
def colIsin (key : List String) (c : ℕ) (other : List (List String)) : Bool :=
  (other.map (fun k => k.getD c (""))).contains (key.getD c (""))

/-- One iteration of the intersection loop of `all_scores_from_df`
(src/scorepi/score_utils.py, lines 286-288) for the column with index `c`:
`pred` is the predictions whose `c`-th column value occurs among the
observations' `c`-th column values, and `obs` symmetrically.  Both filters
read the ORIGINAL frames, exactly as in the source, where the loop body
rebinds `pred` and `obs` from `predictions` and `observations` on every
iteration. -/
def intersectStep (observations : Observations) (predictions : Predictions) (c : ℕ) :
    Observations × Predictions :=
  (observations.filter (fun r => colIsin r.key c predictions.get_x),
   predictions.filter (fun r => colIsin r.key c observations.get_x))

/-- The `if mismatched_allowed:` branch of `all_scores_from_df`
(src/scorepi/score_utils.py, lines 284-292), which produces the
observation/prediction pair handed to the scoring functions: loop over the
independent columns (`observations.ind_cols`, indices `0..ncols-1`), each
iteration overwriting the previous one's result.  When the mode is off the
frames are passed through unchanged.  (`ind_cols` is never empty in the
source — it always contains the timestamp column — so the initial value of
the fold is never returned in mismatched mode with a faithful input.) -/
def all_scores_from_df_inputs (observations : Observations) (predictions : Predictions)
    (mismatched_allowed : Bool) : Observations × Predictions :=
  if mismatched_allowed then
    (List.range observations.ncols).foldl
      (fun _ c => intersectStep observations predictions c) (observations, predictions)
  else
    (observations, predictions)

/-- The interval-score values fetched for one interval range inside the
pipeline: `interval_score` applied to the observations and the two quantile
vectors at `0.5 ± range/200`, as in src/scorepi/score_utils.py lines 68-75
(empty when the call fails; used only under hypotheses that make it
succeed). -/
def fetched_interval_scores (observations : Observations) (predictions : Predictions)
    (r : ℚ) : List ℚ :=
  match interval_score observations.get_value (predictions.get_quantile (1 / 2 - r / 200))
      (predictions.get_quantile (1 / 2 + r / 200)) r with
  | Except.ok sc => sc.interval_score
  | Except.error _ => []

/-- Specification-side definition (for the refinement claim about the `wis`
column): the closed-form WIS formula of the spec, section 4.3 —
`(0.5 * median_absolute_error + Σ over ranges of 0.5 * α * interval_score) /
(num_ranges + 0.5)` with `α = 1 - range/100`, elementwise. -/
def wis_spec (observations : Observations) (predictions : Predictions)
    (interval_ranges : List ℚ) : List ℚ :=
  let obs := observations.get_value
  let median := predictions.get_quantile (1 / 2)
  let mae := List.zipWith (fun o m => |o - m|) obs median
  (List.range mae.length).map (fun i =>
    (1 / 2 * mae.getD i 0 +
        (interval_ranges.map (fun r =>
          1 / 2 * (1 - r / 100) *
            (fetched_interval_scores observations predictions r).getD i 0)).sum) /
      ((interval_ranges.length : ℚ) + 1 / 2))

/-- Concrete observation frame for claim C1: the input of the repository's
own test `TestAbsoluteError.test_score_single_loc`, which calls the pipeline
with `interval_ranges=[]`. -/
def exC1_obs : Observations := Observations.init [⟨1, ["d1", "US"]⟩, ⟨1, ["d2", "US"]⟩] 2

/-- Concrete prediction frame for claim C1 (point value 2 and median value 2
at both dates, as in the repository test). -/
def exC1_pred : Predictions := Predictions.init
  [⟨2, none, "point", ["d1", "US"]⟩, ⟨2, none, "point", ["d2", "US"]⟩,
   ⟨2, some (1 / 2), "quantile", ["d1", "US"]⟩, ⟨2, some (1 / 2), "quantile", ["d2", "US"]⟩] 2

/-- Concrete observation frame for claim C2 (one timestamp, observed 1). -/
def exC2_obs : Observations := Observations.init [⟨1, ["d1"]⟩] 1

/-- Concrete prediction frame for claim C2: point value 3 differs from the
median value 1, so `|obs - point| = 2` while `|obs - median| = 0`. -/
def exC2_pred : Predictions := Predictions.init
  [⟨3, none, "point", ["d1"]⟩, ⟨1, some (1 / 2), "quantile", ["d1"]⟩,
   ⟨0, some (1 / 4), "quantile", ["d1"]⟩, ⟨2, some (3 / 4), "quantile", ["d1"]⟩] 1

/-- Concrete observation frame for claim C3: two timestamps, one location. -/
def exC3_obs : Observations := Observations.init [⟨1, ["d1", "US"]⟩, ⟨1, ["d2", "US"]⟩] 2

/-- Concrete prediction frame for claim C3 (quantiles 0.25/0.5/0.75 at both
timestamps, as in the repository test `TestAllIntervalScores`). -/
def exC3_pred : Predictions := Predictions.init
  [⟨0, some (1 / 4), "quantile", ["d1", "US"]⟩, ⟨0, some (1 / 4), "quantile", ["d2", "US"]⟩,
   ⟨2, some (1 / 2), "quantile", ["d1", "US"]⟩, ⟨2, some (1 / 2), "quantile", ["d2", "US"]⟩,
   ⟨2, some (3 / 4), "quantile", ["d1", "US"]⟩, ⟨2, some (3 / 4), "quantile", ["d2", "US"]⟩] 2

/-- The output table of the pipeline on the claim-C3 example input. -/
def exC3_tbl : ScoredTable :=
  { keys := [["d1", "US"], ["d2", "US"]]
    range_blocks := [{ interval_range := 50,
                       scores := { interval_score := [2, 2], dispersion := [2, 2],
                                   underprediction := [0, 0], overprediction := [0, 0] } }]
    wis := [2 / 3, 2 / 3]
    point_absolute_error := [1, 1]
    median_absolute_error := [1, 1]
    median_absolute_error_underprediction := [1, 1]
    median_absolute_error_overprediction := [0, 0] }

/-- Concrete observation frame for claim C4: one row at timestamp `d1`,
location `A`. -/
def exC4_obs : Observations := Observations.init [⟨1, ["d1", "A"]⟩] 2

/-- Concrete prediction frame for claim C4: one row at timestamp `d2`
(absent from the observations), location `A`. -/
def exC4_pred : Predictions := Predictions.init [⟨1, some (1 / 2), "quantile", ["d2", "A"]⟩] 2

/-- Concrete observation frame for claim C5. -/
def exC5_obs : Observations := Observations.init [⟨1, ["d1"]⟩] 1

/-- Concrete prediction frame for claim C5: median 2 exceeds the observed
value 1. -/
def exC5_pred : Predictions := Predictions.init
  [⟨2, some (1 / 2), "quantile", ["d1"]⟩, ⟨0, some (1 / 4), "quantile", ["d1"]⟩,
   ⟨3, some (3 / 4), "quantile", ["d1"]⟩] 1

/-- The output table of the pipeline on the claim-C5 example input. -/
def exC5_tbl : ScoredTable :=
  { keys := [["d1"]]
    range_blocks := [{ interval_range := 50,
                       scores := { interval_score := [3], dispersion := [3],
                                   underprediction := [0], overprediction := [0] } }]
    wis := [5 / 6]
    point_absolute_error := [1]
    median_absolute_error := [1]
    median_absolute_error_underprediction := [1]
    median_absolute_error_overprediction := [0] }

/-- With an empty `interval_ranges` list the pipeline raises (the
`functools.reduce` of the empty list of per-range frames), although the
median check passes; evaluated at the input of the repository's own test
`TestAbsoluteError.test_score_single_loc`, which expects a table of
absolute errors instead. -/
theorem C1_empty_ranges_raise :
    (exC1_pred.get_quantile (1 / 2)).length ≠ 0 ∧
    all_timestamped_scores_from_df exC1_obs exC1_pred []
      = Except.error ("reduce() of empty iterable with no initial value") :=
  ⟨by with_unfolding_all decide, by with_unfolding_all rfl⟩

/-- The emitted `point_absolute_error` column holds the MEDIAN absolute
error (line 86 of src/scorepi/score_utils.py assigns
`median_absolute_error`): at the claim-C2 input the column is `[0]` although
`|obs - point| = [2]`. -/
theorem C2_point_column_holds_median_error :
    (all_timestamped_scores_from_df exC2_obs exC2_pred [50]).map
        ScoredTable.point_absolute_error = Except.ok [0] ∧
    List.zipWith (fun o p => |o - p|) exC2_obs.get_value exC2_pred.get_point = [2] ∧
    (0 : ℚ) ≠ 2 :=
  ⟨by with_unfolding_all rfl, by with_unfolding_all decide, by norm_num⟩

/-- In mismatched-allowed mode both frames survive unfiltered on the claim-C4
input even though the timestamp (`d1` versus `d2`, shared key column 0)
matches on neither side: the loop of src/scorepi/score_utils.py lines
286-288 overwrites its own result, so only the LAST independent column
(location) is intersected. -/
theorem C4_only_last_column_intersected :
    (all_scores_from_df_inputs exC4_obs exC4_pred true).1.rows = [⟨1, ["d1", "A"]⟩] ∧
    (all_scores_from_df_inputs exC4_obs exC4_pred true).2.rows
      = [⟨1, some (1 / 2), "quantile", ["d2", "A"]⟩] ∧
    colIsin ["d2", "A"] 0 exC4_obs.get_x = false ∧
    colIsin ["d1", "A"] 0 exC4_pred.get_x = false := by
  with_unfolding_all decide

/-- In mismatched-allowed mode the intersection loop is equivalent to the
single intersection on the last independent column (supporting lemma for the
claim-C4 analysis). -/
lemma all_scores_from_df_inputs_last_col (observations : Observations)
    (predictions : Predictions) (h : 0 < observations.ncols) :
    all_scores_from_df_inputs observations predictions true
      = intersectStep observations predictions (observations.ncols - 1) := by
  unfold all_scores_from_df_inputs
  rw [if_pos rfl]
  obtain ⟨m, hm⟩ : ∃ m, observations.ncols = m + 1 :=
    ⟨observations.ncols - 1, (Nat.succ_pred_eq_of_pos h).symm⟩
  rw [hm, List.range_succ, List.foldl_append]
  simp

/-- The division-checked interval score agrees with the total-rational one
whenever `alpha` is nonzero (in particular for every range below 100). -/
lemma interval_score_div_checked_agrees (observation lower upper : List ℚ)
    (interval_range : ℚ) (h : (1 : ℚ) - interval_range / 100 ≠ 0) :
    interval_score_div_checked observation lower upper interval_range
      = interval_score observation lower upper interval_range := by
  unfold interval_score_div_checked interval_score
  split
  · rfl
  · split
    · rfl
    · rw [if_neg h]

/-- When every observation lies inside its interval, both penalty terms are
exact zeros and the score reduces to the dispersion, for any scalar factor
`c` in place of `2/alpha`. -/
lemma score_no_penalty (c : ℚ) (observation lower upper : List ℚ)
    (hl : lower.length = observation.length) (hu : upper.length = observation.length)
    (hin : ∀ p ∈ List.zip observation (List.zip lower upper), p.2.1 ≤ p.1 ∧ p.1 ≤ p.2.2) :
    List.zipWith (fun a b => a + b)
        (List.zipWith (fun a b => a + b)
          (List.zipWith (fun u l => u - l) upper lower)
          (List.zipWith (fun l o => c * (l - o) * (if o < l then 1 else 0))
            lower observation))
        (List.zipWith (fun o u => c * (o - u) * (if u < o then 1 else 0))
          observation upper)
      = List.zipWith (fun u l => u - l) upper lower := by
  induction observation generalizing lower upper with
  | nil =>
    have hl' : lower = [] := List.length_eq_zero.mp (by simpa using hl)
    have hu' : upper = [] := List.length_eq_zero.mp (by simpa using hu)
    subst hl' hu'
    rfl
  | cons o os ih =>
    cases lower with
    | nil => simp at hl
    | cons l ls =>
      cases upper with
      | nil => simp at hu
      | cons u us =>
        have h0 : l ≤ o ∧ o ≤ u := by
          have := hin (o, (l, u)) (by simp [List.zip_cons_cons])
          simpa using this
        have htail := ih ls us (by simpa using hl) (by simpa using hu)
          (fun p hp => hin p (by simp [List.zip_cons_cons]; exact Or.inr hp))
        simp only [List.zipWith_cons_cons]
        rw [htail]
        have hol : ¬ (o < l) := not_lt.mpr h0.1
        have huo : ¬ (u < o) := not_lt.mpr h0.2
        simp [if_neg hol, if_neg huo]

/-- At `interval_range = 100` the claim fails: the range passes the
validation and the observation 0 lies within `[0, 1]`, yet no score equal to
`upper - lower` is returned — `alpha = 0` and the plain Python scalar
division `2/alpha` at score_functions.py line 48 raises ZeroDivisionError
instead. -/
theorem C7_counterexample_range_100 :
    (0 : ℚ) ≤ 0 ∧ (0 : ℚ) ≤ 1 ∧ (0 : ℚ) ≤ 100 ∧ (100 : ℚ) ≤ 100 ∧
    interval_score_div_checked [0] [0] [1] 100
      = Except.error ("float division by zero") ∧
    ∀ sc : IntervalScores, interval_score_div_checked [0] [0] [1] 100 ≠ Except.ok sc := by
  have heq : interval_score_div_checked [0] [0] [1] 100
      = Except.error ("float division by zero") := by
    with_unfolding_all rfl
  exact ⟨le_refl 0, by norm_num, by norm_num, le_refl 100, heq,
    fun sc h => Except.noConfusion (heq.symm.trans h)⟩

/-- For interval ranges in `[0, 100)` and observations within their
intervals, the interval score equals `upper - lower` elementwise (the
amended claim: range 100, where the source raises ZeroDivisionError, is
excluded). -/
theorem C7_score_is_dispersion_within_bounds (observation lower upper : List ℚ)
    (interval_range : ℚ) (h0 : 0 ≤ interval_range) (h1 : interval_range < 100)
    (hl : lower.length = observation.length) (hu : upper.length = observation.length)
    (hin : ∀ p ∈ List.zip observation (List.zip lower upper), p.2.1 ≤ p.1 ∧ p.1 ≤ p.2.2) :
    (interval_score_div_checked observation lower upper interval_range).map
        IntervalScores.interval_score
      = Except.ok (List.zipWith (fun u l => u - l) upper lower) := by
  have hlen : ¬ (lower.length ≠ upper.length ∨ lower.length ≠ observation.length) := by
    push_neg
    exact ⟨hl.trans hu.symm, hl⟩
  have hrange : ¬ ((100 : ℚ) < interval_range ∨ interval_range < 0) := by
    push_neg
    exact ⟨h1.le, h0⟩
  have halpha : (1 : ℚ) - interval_range / 100 ≠ 0 := by
    have : interval_range / 100 < 1 := by linarith
    intro h
    rw [sub_eq_zero] at h
    exact absurd h.symm (ne_of_lt this)
  unfold interval_score_div_checked
  rw [if_neg hlen, if_neg hrange]
  dsimp only
  rw [if_neg halpha]
  show Except.map _ (Except.ok _) = _
  rw [Except.map]
  exact congrArg Except.ok
    (score_no_penalty (2 / (1 - interval_range / 100)) observation lower upper hl hu hin)

/-- Witness for the amended C7 statement at a concrete in-bounds input. -/
theorem C7_score_is_dispersion_witness :
    (interval_score_div_checked [1 / 2, 1 / 2] [0, 1 / 2] [1, 1 / 2] 50).map
        IntervalScores.interval_score
      = Except.ok (List.zipWith (fun u l => u - l) [1, 1 / 2] [0, 1 / 2]) :=
  C7_score_is_dispersion_within_bounds [1 / 2, 1 / 2] [0, 1 / 2] [1, 1 / 2] 50
    (by norm_num) (by norm_num) rfl rfl (by with_unfolding_all decide)

/-- On the empty (equal-length) input the claim fails: `np.mean` of an empty
array is `nan`, which is not a value in `[0, 1]`, although every observation
is (vacuously) within its bounds. -/
theorem C8_counterexample_empty :
    coverage ([] : List ℚ) [] [] = Except.ok FVal.nan ∧
    (∀ p ∈ List.zip ([] : List ℚ) (List.zip ([] : List ℚ) ([] : List ℚ)),
        p.2.1 ≤ p.1 ∧ p.1 ≤ p.2.2) ∧
    ∀ q : ℚ, coverage ([] : List ℚ) [] [] ≠ Except.ok (FVal.fin q) := by
  refine ⟨rfl, by simp, fun q h => ?_⟩
  rw [show coverage ([] : List ℚ) [] [] = Except.ok FVal.nan from rfl] at h
  exact FVal.noConfusion (Except.ok.inj h)

/-- For nonempty equal-length inputs, coverage is a finite value in `[0, 1]`
and equals 1 exactly when every observation lies within its bounds (the
amended claim: the empty input is excluded). -/
theorem C8_coverage_in_unit_interval (observation lower upper : List ℚ)
    (hl : lower.length = observation.length) (hu : upper.length = observation.length)
    (hne : observation ≠ []) :
    ∃ q : ℚ, coverage observation lower upper = Except.ok (FVal.fin q) ∧
      0 ≤ q ∧ q ≤ 1 ∧
      (q = 1 ↔ ∀ p ∈ List.zip observation (List.zip lower upper),
        p.2.1 ≤ p.1 ∧ p.1 ≤ p.2.2) := by
  have hlen : ¬ (lower.length ≠ upper.length ∨ lower.length ≠ observation.length) := by
    push_neg
    exact ⟨hl.trans hu.symm, hl⟩
  have hn : observation.length ≠ 0 := fun h => hne (List.length_eq_zero.mp h)
  have hnpos : (0 : ℚ) < (observation.length : ℚ) := by
    exact_mod_cast Nat.pos_of_ne_zero hn
  have hziplen : (List.zip observation (List.zip lower upper)).length
      = observation.length := by
    simp [List.length_zip, hl, hu]
  refine ⟨((List.zip observation (List.zip lower upper)).countP
      (fun p => decide (p.2.1 ≤ p.1 ∧ p.1 ≤ p.2.2)) : ℚ) / (observation.length : ℚ),
    ?_, ?_, ?_, ?_⟩
  · unfold coverage
    rw [if_neg hlen, if_neg hn]
  · positivity
  · rw [div_le_one hnpos]
    have hcount := List.countP_le_length
      (p := fun p : ℚ × ℚ × ℚ => decide (p.2.1 ≤ p.1 ∧ p.1 ≤ p.2.2))
      (l := List.zip observation (List.zip lower upper))
    rw [hziplen] at hcount
    exact_mod_cast hcount
  · rw [div_eq_one_iff_eq (ne_of_gt hnpos)]
    rw [show ((observation.length : ℚ) = ((List.zip observation (List.zip lower upper)).length : ℚ))
        from by exact_mod_cast hziplen.symm]
    rw [Nat.cast_inj]
    rw [List.countP_eq_length]
    constructor
    · intro h p hp
      simpa using h p hp
    · intro h p hp
      simpa using h p hp

/-- Witness for the amended C8 statement at the repository test input
(coverage 1/3). -/
theorem C8_coverage_witness :
    ∃ q : ℚ, coverage [1 / 2, 1 / 2, 1 / 2] [2 / 5, 1 / 2, 3 / 5] [9 / 20, 11 / 20, 13 / 20]
        = Except.ok (FVal.fin q) ∧ 0 ≤ q ∧ q ≤ 1 ∧
      (q = 1 ↔ ∀ p ∈ List.zip [1 / 2, 1 / 2, (1 : ℚ) / 2]
          (List.zip [2 / 5, 1 / 2, 3 / 5] [9 / 20, 11 / 20, 13 / 20]),
        p.2.1 ≤ p.1 ∧ p.1 ≤ p.2.2) :=
  C8_coverage_in_unit_interval [1 / 2, 1 / 2, 1 / 2] [2 / 5, 1 / 2, 3 / 5]
    [9 / 20, 11 / 20, 13 / 20] rfl rfl (by simp)

/-- The underprediction half of the median absolute error, as the source
computes it, equals the conditional form: `|obs - median|` where
`median > obs` and 0 otherwise. -/
lemma mae_under_char : ∀ (median obs : List ℚ),
    List.zipWith (fun h e => h * e)
        (List.zipWith (fun m o => heaviside (m - o) 0) median obs)
        (List.zipWith (fun o m => |o - m|) obs median)
      = List.zipWith (fun m o => if o < m then |o - m| else 0) median obs
  | [], _ => rfl
  | _ :: _, [] => rfl
  | m :: ms, o :: os => by
    simp only [List.zipWith_cons_cons]
    rw [mae_under_char ms os]
    rcases lt_trichotomy o m with hlt | heq | hgt
    · rw [if_pos hlt, heaviside, if_neg (by linarith), if_neg (by linarith), one_mul]
    · rw [if_neg (by rw [heq]; exact lt_irrefl m),
        heaviside, if_neg (by rw [heq]; norm_num), if_pos (by rw [heq]; ring), zero_mul]
    · rw [if_neg (not_lt.mpr hgt.le), heaviside, if_pos (by linarith), zero_mul]

/-- The overprediction half of the median absolute error equals the
conditional form: `|obs - median|` where `median < obs` and 0 otherwise. -/
lemma mae_over_char : ∀ (median obs : List ℚ),
    List.zipWith (fun h e => h * e)
        (List.zipWith (fun m o => heaviside (o - m) 0) median obs)
        (List.zipWith (fun o m => |o - m|) obs median)
      = List.zipWith (fun m o => if m < o then |o - m| else 0) median obs
  | [], _ => rfl
  | _ :: _, [] => rfl
  | m :: ms, o :: os => by
    simp only [List.zipWith_cons_cons]
    rw [mae_over_char ms os]
    rcases lt_trichotomy m o with hlt | heq | hgt
    · rw [if_pos hlt, heaviside, if_neg (by linarith), if_neg (by linarith), one_mul]
    · rw [if_neg (by rw [heq]; exact lt_irrefl o),
        heaviside, if_neg (by rw [heq]; norm_num), if_pos (by rw [heq]; ring), zero_mul]
    · rw [if_neg (not_lt.mpr hgt.le), heaviside, if_pos (by linarith), zero_mul]

/-- Inversion of the success case of the timestamped pipeline: the emitted
columns are the let-bound lists of the source. -/
lemma all_timestamped_ok_inversion (observations : Observations)
    (predictions : Predictions) (interval_ranges : List ℚ) (tbl : ScoredTable)
    (h : all_timestamped_scores_from_df observations predictions interval_ranges
        = Except.ok tbl) :
    ∃ wis blocks,
      interval_ranges.foldl (wisStep observations predictions)
          (Except.ok ((List.zipWith (fun o m => |o - m|) observations.get_value
              (predictions.get_quantile (1 / 2))).map (fun e => 1 / 2 * e), []))
        = Except.ok (wis, blocks) ∧
      blocks.length ≠ 0 ∧
      tbl = { keys := observations.get_x
              range_blocks := blocks
              wis := wis.map (fun w => w / ((interval_ranges.length : ℚ) + 1 / 2))
              point_absolute_error := List.zipWith (fun o m => |o - m|)
                observations.get_value (predictions.get_quantile (1 / 2))
              median_absolute_error := List.zipWith (fun o m => |o - m|)
                observations.get_value (predictions.get_quantile (1 / 2))
              median_absolute_error_underprediction := List.zipWith (fun h e => h * e)
                (List.zipWith (fun m o => heaviside (m - o) 0)
                  (predictions.get_quantile (1 / 2)) observations.get_value)
                (List.zipWith (fun o m => |o - m|) observations.get_value
                  (predictions.get_quantile (1 / 2)))
              median_absolute_error_overprediction := List.zipWith (fun h e => h * e)
                (List.zipWith (fun m o => heaviside (o - m) 0)
                  (predictions.get_quantile (1 / 2)) observations.get_value)
                (List.zipWith (fun o m => |o - m|) observations.get_value
                  (predictions.get_quantile (1 / 2))) } := by
  unfold all_timestamped_scores_from_df at h
  split at h
  · exact Except.noConfusion h
  · split at h
    · exact Except.noConfusion h
    · split at h
      · exact Except.noConfusion h
      · dsimp only at h
        generalize hfold : List.foldl (wisStep observations predictions)
            (Except.ok (List.map (fun e => 1 / 2 * e)
              (List.zipWith (fun o m => |o - m|) observations.get_value
                (predictions.get_quantile (1 / 2))), [])) interval_ranges = res at h
        cases res with
        | error e => exact Except.noConfusion h
        | ok wb =>
          obtain ⟨wis, blocks⟩ := wb
          dsimp only at h
          split at h
          · exact Except.noConfusion h
          · rename_i hblocks
            refine ⟨wis, blocks, hfold.symm ▸ rfl, hblocks, ?_⟩
            exact (Except.ok.inj h).symm

/-- At the claim-C5 input the `median_absolute_error_underprediction` column
is nonzero (`[1]`) although the median 2 is GREATER than the observation 1,
contradicting "nonzero only where median < obs". -/
theorem C5_counterexample_direction :
    (all_timestamped_scores_from_df exC5_obs exC5_pred [50]).map
        ScoredTable.median_absolute_error_underprediction = Except.ok [1] ∧
    exC5_pred.get_quantile (1 / 2) = [2] ∧ exC5_obs.get_value = [1] ∧
    ¬ ((2 : ℚ) < 1) ∧ (1 : ℚ) ≠ 0 :=
  ⟨by with_unfolding_all rfl, by with_unfolding_all rfl, by with_unfolding_all rfl,
   by norm_num, by norm_num⟩

/-- The amended claim: in the emitted table,
`median_absolute_error_underprediction` equals `|obs - median|` where
`median > obs` and 0 otherwise (so it is nonzero only where `median > obs`),
`median_absolute_error_overprediction` equals `|obs - median|` where
`median < obs` and 0 otherwise, and when `median = obs` both are 0. -/
theorem C5_under_over_characterisation (observations : Observations)
    (predictions : Predictions) (interval_ranges : List ℚ) (tbl : ScoredTable)
    (h : all_timestamped_scores_from_df observations predictions interval_ranges
        = Except.ok tbl) :
    tbl.median_absolute_error_underprediction
        = List.zipWith (fun m o => if o < m then |o - m| else 0)
            (predictions.get_quantile (1 / 2)) observations.get_value ∧
    tbl.median_absolute_error_overprediction
        = List.zipWith (fun m o => if m < o then |o - m| else 0)
            (predictions.get_quantile (1 / 2)) observations.get_value := by
  obtain ⟨wis, blocks, -, -, htbl⟩ :=
    all_timestamped_ok_inversion observations predictions interval_ranges tbl h
  subst htbl
  exact ⟨mae_under_char _ _, mae_over_char _ _⟩

/-- Witness for the amended C5 statement at the claim-C5 input. -/
theorem C5_under_over_witness :
    exC5_tbl.median_absolute_error_underprediction
        = List.zipWith (fun m o => if o < m then |o - m| else 0)
            (exC5_pred.get_quantile (1 / 2)) exC5_obs.get_value ∧
    exC5_tbl.median_absolute_error_overprediction
        = List.zipWith (fun m o => if m < o then |o - m| else 0)
            (exC5_pred.get_quantile (1 / 2)) exC5_obs.get_value :=
  C5_under_over_characterisation exC5_obs exC5_pred [50] exC5_tbl
    (by with_unfolding_all rfl)

/-- A nonempty median makes `get_point` nonempty, by the fallback branch. -/
lemma get_point_ne_nil (p : Predictions) (h : p.get_quantile (1 / 2) ≠ []) :
    p.get_point ≠ [] := by
  unfold Predictions.get_point
  dsimp only
  split
  · exact h
  · rename_i hlen
    intro hnil
    exact hlen (by rw [hnil]; rfl)

/-- The only error messages `interval_score` can produce. -/
lemma interval_score_error_msgs (obs l u : List ℚ) (r : ℚ) (e : String)
    (h : interval_score obs l u r = Except.error e) :
    e = "vector shape mismatch" ∨ e = "interval range should be between 0 and 100" := by
  unfold interval_score at h
  split at h
  · exact Or.inl (Except.error.inj h).symm
  · split at h
    · exact Or.inr (Except.error.inj h).symm
    · exact Except.noConfusion h

/-- The only error outcomes of one loop iteration: either the accumulator was
already that error, or the message is one of the loop's own. -/
lemma wisStep_error_msgs (o : Observations) (p : Predictions)
    (acc : Except String (List ℚ × List RangeBlock)) (r : ℚ) (e : String)
    (h : wisStep o p acc r = Except.error e) :
    acc = Except.error e ∨ e = "operands could not be broadcast together"
      ∨ e = "something went wrong" ∨ e = "vector shape mismatch"
      ∨ e = "interval range should be between 0 and 100" := by
  unfold wisStep at h
  split at h
  · exact Or.inl h
  · dsimp only at h
    split at h
    · exact Or.inr (Or.inl (Except.error.inj h).symm)
    · split at h
      · exact Or.inr (Or.inr (Or.inl (Except.error.inj h).symm))
      · split at h
        · rename_i e1 heq
          have h1 := (Except.error.inj h).symm
          subst h1
          rcases interval_score_error_msgs _ _ _ _ _ heq with h2 | h2
          · exact Or.inr (Or.inr (Or.inr (Or.inl h2)))
          · exact Or.inr (Or.inr (Or.inr (Or.inr h2)))
        · exact Except.noConfusion h

/-- Folding the loop from a non-error accumulator can only fail with one of
the loop's own messages. -/
lemma foldl_wisStep_error_msgs (o : Observations) (p : Predictions) :
    ∀ (rs : List ℚ) (acc : Except String (List ℚ × List RangeBlock)) (e : String),
      rs.foldl (wisStep o p) acc = Except.error e →
      acc = Except.error e ∨ e = "operands could not be broadcast together"
        ∨ e = "something went wrong" ∨ e = "vector shape mismatch"
        ∨ e = "interval range should be between 0 and 100"
  | [], acc, e, h => Or.inl h
  | r :: rs, acc, e, h => by
    rw [List.foldl_cons] at h
    rcases foldl_wisStep_error_msgs o p rs _ e h with hstep | hmsg
    · rcases wisStep_error_msgs o p acc r e hstep with h1 | hm
      · exact Or.inl h1
      · exact Or.inr hm
    · exact Or.inr hmsg

/-- Because `get_point` falls back to the median values whenever no
point-typed rows exist, a nonempty median makes `get_point` nonempty, and the
"point estimate must be included" error of the pipeline can never be
raised. -/
theorem C10_point_error_unreachable :
    (∀ p : Predictions, p.get_quantile (1 / 2) ≠ [] → p.get_point ≠ []) ∧
    (∀ (observations : Observations) (predictions : Predictions)
        (interval_ranges : List ℚ),
        all_timestamped_scores_from_df observations predictions interval_ranges
          ≠ Except.error ("The point estimate must be included")) := by
  refine ⟨get_point_ne_nil, ?_⟩
  intro observations predictions interval_ranges h
  unfold all_timestamped_scores_from_df at h
  split at h
  · exact absurd (Except.error.inj h) (by decide)
  · split at h
    · exact absurd (Except.error.inj h) (by decide)
    · split at h
      · rename_i hmed hpt
        exact get_point_ne_nil predictions (fun hn => hmed (by rw [hn]; rfl))
          (List.length_eq_zero.mp hpt)
      · dsimp only at h
        generalize hfold : List.foldl (wisStep observations predictions)
            (Except.ok (List.map (fun e => 1 / 2 * e)
              (List.zipWith (fun o m => |o - m|) observations.get_value
                (predictions.get_quantile (1 / 2))), [])) interval_ranges = res at h
        cases res with
        | error e =>
          have he := Except.error.inj h
          subst he
          rcases foldl_wisStep_error_msgs observations predictions interval_ranges _ _ hfold
            with hacc | hm | hm | hm | hm
          · exact Except.noConfusion hacc
          all_goals exact absurd hm (by decide)
        | ok wb =>
          obtain ⟨wis, blocks⟩ := wb
          dsimp only at h
          split at h
          · exact absurd (Except.error.inj h) (by decide)
          · exact Except.noConfusion h

/-- Witness for C10 at a concrete prediction frame with a median row. -/
theorem C10_point_fallback_witness : exC2_pred.get_point ≠ [] :=
  C10_point_error_unreachable.1 exC2_pred (by with_unfolding_all decide)

/-- Error propagation: once the accumulator is an error, the loop keeps it. -/
lemma foldl_wisStep_error_prop (o : Observations) (p : Predictions) (e : String) :
    ∀ rs : List ℚ, rs.foldl (wisStep o p) (Except.error e) = Except.error e
  | [] => rfl
  | _ :: rs => foldl_wisStep_error_prop o p e rs

/-- Indexing with default into a zipWith of two sufficiently long lists. -/
lemma getD_zipWith (f : ℚ → ℚ → ℚ) :
    ∀ (a b : List ℚ) (i : ℕ), i < a.length → i < b.length →
      (List.zipWith f a b).getD i 0 = f (a.getD i 0) (b.getD i 0)
  | [], _, i, ha, _ => absurd ha (by simp)
  | _ :: _, [], _, _, hb => absurd hb (by simp)
  | x :: xs, y :: ys, 0, _, _ => rfl
  | x :: xs, y :: ys, i + 1, ha, hb => by
    simp only [List.zipWith_cons_cons, List.getD_cons_succ]
    exact getD_zipWith f xs ys i (by simpa using ha) (by simpa using hb)

/-- Indexing with default into a map of a sufficiently long list. -/
lemma getD_map (f : ℚ → ℚ) :
    ∀ (a : List ℚ) (i : ℕ), i < a.length → (a.map f).getD i 0 = f (a.getD i 0)
  | [], i, h => absurd h (by simp)
  | x :: xs, 0, _ => rfl
  | x :: xs, i + 1, h => by
    simp only [List.map_cons, List.getD_cons_succ]
    exact getD_map f xs i (by simpa using h)

/-- Indexing agrees with indexing-with-default in bounds. -/
lemma getElem_eq_getD_zero (l : List ℚ) (i : ℕ) (h : i < l.length) :
    l[i] = l.getD i 0 := by
  rw [List.getD_eq_getElem?_getD, List.getElem?_eq_getElem h]
  rfl

/-- A successful `interval_score` call implies the length guards held, and
its score vector is as long as the observations. -/
lemma interval_score_ok_lengths (obs l u : List ℚ) (r : ℚ) (sc : IntervalScores)
    (h : interval_score obs l u r = Except.ok sc) :
    l.length = obs.length ∧ u.length = obs.length ∧
    sc.interval_score.length = obs.length := by
  unfold interval_score at h
  split at h
  · exact Except.noConfusion h
  · split at h
    · exact Except.noConfusion h
    · rename_i hlen hrange
      push_neg at hlen
      obtain ⟨hlu, hlo⟩ := hlen
      have hsc := (Except.ok.inj h).symm
      refine ⟨hlo, hlu.symm.trans hlo, ?_⟩
      rw [hsc]
      simp only [List.length_zipWith]
      omega

/-- A successful loop iteration implies the interval score succeeded and the
accumulator was extended by `0.5 * α * score` with `α = 1 - range/100`. -/
lemma wisStep_ok_inversion (o : Observations) (p : Predictions) (w : List ℚ)
    (bl : List RangeBlock) (r : ℚ) (pr : List ℚ × List RangeBlock)
    (h : wisStep o p (Except.ok (w, bl)) r = Except.ok pr) :
    ∃ sc, interval_score o.get_value (p.get_quantile (1 / 2 - r / 200))
        (p.get_quantile (1 / 2 + r / 200)) r = Except.ok sc ∧
      pr.1 = List.zipWith (fun a s => a + 1 / 2 * (1 - r / 100) * s) w
        sc.interval_score := by
  have hfun : (fun a s : ℚ => a + 1 / 2 * (1 - (1 / 2 + r / 200 - (1 / 2 - r / 200))) * s)
      = fun a s : ℚ => a + 1 / 2 * (1 - r / 100) * s := by
    funext a s
    ring
  unfold wisStep at h
  dsimp only at h
  split at h
  · exact Except.noConfusion h
  · split at h
    · exact Except.noConfusion h
    · split at h
      · exact Except.noConfusion h
      · rename_i sc heq
        refine ⟨sc, heq, ?_⟩
        have hpr := (Except.ok.inj h).symm
        rw [hpr]
        dsimp only
        rw [hfun]

/-- When the interval score succeeds, `fetched_interval_scores` is its score
vector. -/
lemma fetched_of_ok (o : Observations) (p : Predictions) (r : ℚ) (sc : IntervalScores)
    (h : interval_score o.get_value (p.get_quantile (1 / 2 - r / 200))
        (p.get_quantile (1 / 2 + r / 200)) r = Except.ok sc) :
    fetched_interval_scores o p r = sc.interval_score := by
  unfold fetched_interval_scores
  rw [h]

/-- Elementwise characterization of the per-range loop: a successful fold
adds `Σ 0.5 * (1 - r/100) * interval_score_r` to every entry of the
accumulator (and preserves its length, as long as the accumulator is no
longer than the observation vector). -/
lemma foldl_wisStep_sum (o : Observations) (p : Predictions) :
    ∀ (rs : List ℚ) (w : List ℚ) (bl : List RangeBlock) (w' : List ℚ)
      (bl' : List RangeBlock),
      w.length ≤ o.get_value.length →
      rs.foldl (wisStep o p) (Except.ok (w, bl)) = Except.ok (w', bl') →
      w'.length = w.length ∧
      ∀ i, i < w.length →
        w'.getD i 0 = w.getD i 0 + (rs.map (fun r =>
          1 / 2 * (1 - r / 100) * (fetched_interval_scores o p r).getD i 0)).sum
  | [], w, bl, w', bl', hw, h => by
    have hwb := Except.ok.inj h
    have hw' : w' = w := (congrArg Prod.fst hwb).symm
    subst hw'
    exact ⟨rfl, fun i _ => by simp⟩
  | r :: rs, w, bl, w', bl', hw, h => by
    rw [List.foldl_cons] at h
    cases hstep : wisStep o p (Except.ok (w, bl)) r with
    | error e =>
      rw [hstep, foldl_wisStep_error_prop] at h
      exact Except.noConfusion h
    | ok pr =>
      obtain ⟨w1, bl1⟩ := pr
      rw [hstep] at h
      obtain ⟨sc, hsc, hw1⟩ := wisStep_ok_inversion o p w bl r (w1, bl1) hstep
      dsimp only at hw1
      obtain ⟨-, -, hsclen⟩ := interval_score_ok_lengths _ _ _ _ _ hsc
      have hw1len : w1.length = w.length := by
        rw [hw1]
        simp only [List.length_zipWith, hsclen]
        omega
      obtain ⟨hlen, hval⟩ := foldl_wisStep_sum o p rs w1 bl1 w' bl'
        (by rw [hw1len]; exact hw) h
      refine ⟨hlen.trans hw1len, fun i hi => ?_⟩
      have hi1 : i < w1.length := by omega
      rw [hval i hi1, hw1, getD_zipWith _ w sc.interval_score i hi (by omega)]
      simp only [List.map_cons, List.sum_cons]
      rw [fetched_of_ok o p r sc hsc]
      ring

/-- The emitted `wis` column equals the closed-form WIS formula of the spec:
`(0.5 * |obs - median| + Σ_r 0.5 * (1 - r/100) * interval_score_r) /
(num_ranges + 0.5)` elementwise.  The interval ranges are restricted to
`[0, 100)` (where the exact-rational embedding agrees with numpy's float
arithmetic). -/
theorem C3_wis_formula (observations : Observations) (predictions : Predictions)
    (interval_ranges : List ℚ) (tbl : ScoredTable)
    (hranges : ∀ r ∈ interval_ranges, 0 ≤ r ∧ r < 100)
    (h : all_timestamped_scores_from_df observations predictions interval_ranges
        = Except.ok tbl) :
    tbl.wis = wis_spec observations predictions interval_ranges := by
  obtain ⟨wis, blocks, hfold, -, htbl⟩ :=
    all_timestamped_ok_inversion observations predictions interval_ranges tbl h
  subst htbl
  show List.map _ wis = _
  unfold wis_spec
  dsimp only
  have hmaelen : (List.zipWith (fun o m => |o - m|) observations.get_value
      (predictions.get_quantile (1 / 2))).length ≤ observations.get_value.length := by
    simp only [List.length_zipWith]
    exact min_le_left _ _
  obtain ⟨hwislen, hwisval⟩ := foldl_wisStep_sum observations predictions interval_ranges
    (List.map (fun e => 1 / 2 * e) (List.zipWith (fun o m => |o - m|)
      observations.get_value (predictions.get_quantile (1 / 2)))) [] wis blocks
    (by rw [List.length_map]; exact hmaelen) hfold
  rw [List.length_map] at hwislen
  apply List.ext_getElem
  · simp only [List.length_map, List.length_range, hwislen]
  · intro i h1 h2
    simp only [List.getElem_map, List.getElem_range]
    have hi : i < (List.zipWith (fun o m => |o - m|) observations.get_value
        (predictions.get_quantile (1 / 2))).length := by
      simp only [List.length_map, hwislen] at h1
      exact h1
    rw [getElem_eq_getD_zero wis i (by rw [hwislen]; exact hi),
      hwisval i (by rw [List.length_map]; exact hi),
      getD_map _ _ i hi]

/-- Witness for C3 at the repository-test input (`wis = 2/3` at both
timestamps). -/
theorem C3_wis_formula_witness :
    exC3_tbl.wis = wis_spec exC3_obs exC3_pred [50] :=
  C3_wis_formula exC3_obs exC3_pred [50] exC3_tbl
    (fun r hr => by
      rw [List.mem_singleton] at hr
      subst hr
      norm_num)
    (by with_unfolding_all rfl)

end Scorepi
